import Mathlib

/-!
Verification of the Shona noun-class resolver (app.py of TerrorCoder/shona_moph).

The resolver core consists of the rule table SHONA_CLASS_MAP, the stem pattern
lists, the function select_best_class, the table lookup, and the inline lemma
and companion-form derivations of the analysis display. Each is embedded below
directly from the source. Python exceptions are modelled by the error side of
an Except value: StopIteration for a call of next() on an exhausted generator,
IndexError for indexing an empty list, ValueError for min() of an empty
sequence. Python string methods are embedded over the character data of the
Lean String type so that every definition evaluates by kernel reduction.
-/

namespace ShonaMoph

/-- The Python exceptions that the resolver code can raise. -/
inductive PyError where
  | stopIteration
  | indexError
  | valueError
deriving DecidableEq

/-- One candidate dictionary of SHONA_CLASS_MAP in app.py. Keys that some
dictionaries omit (or set to Python None) are Option fields; the field
lemma_prefix is the source-prefix key of the plural entries, plural is the
companion-prefix key of the singular entries. -/
structure ClassEntry where
  classId : String
  meaning : String
  number : String
  plural : Option String := none
  lemma_prefix : Option String := none
  priority : Option Nat := none
deriving DecidableEq

instance {e a : Type} [DecidableEq e] [DecidableEq a] : DecidableEq (Except e a) := fun x y =>
  match x, y with
  | .error u, .error v => decidable_of_iff (u = v) (by simp)
  | .ok u, .ok v => decidable_of_iff (u = v) (by simp)
  | .error _, .ok _ => .isFalse (by simp)
  | .ok _, .error _ => .isFalse (by simp)

/-- Embedding of the Python method str.lower, character by character. -/
def py_lower (s : String) : String :=
  ⟨ List.map Char.toLower s.data⟩

/-- Embedding of the Python method s.startswith(pre). -/
def py_startswith (s pre : String) : Bool :=
  List.isPrefixOf pre.data s.data

/-- The test applied to the lowered stem and one pattern string in the mu
branch of select_best_class: stem_lower.startswith(s) or stem_lower == s. -/
def stem_qualifies (stem_lower s : String) : Bool :=
  py_startswith stem_lower s || stem_lower == s

/-- The any(...) generator over a pattern list in select_best_class. -/
def matches_any (stem_lower : String) (pats : List String) : Bool :=
  pats.any (fun s => stem_qualifies stem_lower s)

/-- PERSON_STEMS of app.py line 162. -/
def PERSON_STEMS : List String :=
  ["nhu", "ntu", "kuru", "rume", "fazi", "ana", "komana", "sikana"]

/-- LOCATIVE_STEMS of app.py line 163. -/
def LOCATIVE_STEMS : List String :=
  ["munda", "minda", "musha", "rodhi", "gomo", "dziva"]

/-- TREE_STEMS of app.py line 164. -/
def TREE_STEMS : List String :=
  ["ti", "tondo", "pani", "ndo", "sasa", "tsamvu", "nzviro"]

/-- BODY_PART_STEMS of app.py line 165. -/
def BODY_PART_STEMS : List String :=
  ["soro", "romo", "mhuno", "romo", "dzira"]

def mu1 : ClassEntry :=
  { classId := "1", meaning := "Person/agent/people who undergo action indicated by agent",
    number := "Singular", plural := some "va", priority := some 1 }

def mu3 : ClassEntry :=
  { classId := "3", meaning := "Tree/Atmospheric/body parts/manner of action",
    number := "Singular", plural := some "mi", priority := some 2 }

def mu18 : ClassEntry :=
  { classId := "18", meaning := "Locative (Inside)", number := "N/A",
    plural := none, priority := some 3 }

def va2 : ClassEntry :=
  { classId := "2", meaning := "People", number := "Plural",
    lemma_prefix := some "mu", priority := some 1 }

def va2a : ClassEntry :=
  { classId := "2a", meaning := "Honorific", number := "N/A",
    lemma_prefix := none, priority := some 2 }

def mi4 : ClassEntry :=
  { classId := "4", meaning := "Trees/Misc", number := "Plural",
    lemma_prefix := some "mu", priority := some 1 }

def chi7 : ClassEntry :=
  { classId := "7", meaning := "Object/Lang", number := "Singular",
    plural := some "zvi", priority := some 1 }

def zvi8 : ClassEntry :=
  { classId := "8", meaning := "Objects", number := "Plural",
    lemma_prefix := some "chi", priority := some 1 }

def ma6 : ClassEntry :=
  { classId := "6", meaning := "Liquids/Big Things", number := "Plural",
    lemma_prefix := some "ri", priority := some 1 }

def ri5 : ClassEntry :=
  { classId := "5", meaning := "Large Object/Fruit", number := "Singular",
    plural := some "ma", priority := some 1 }

def ru11 : ClassEntry :=
  { classId := "11", meaning := "Long/Thin Object", number := "Singular",
    plural := some "n", priority := some 1 }

def ka12 : ClassEntry :=
  { classId := "12", meaning := "Diminutive (Small)", number := "Singular",
    plural := some "tu", priority := some 1 }

def tu13 : ClassEntry :=
  { classId := "13", meaning := "Diminutive Plural", number := "Plural",
    lemma_prefix := some "ka", priority := some 1 }

def hu14 : ClassEntry :=
  { classId := "14", meaning := "Abstract Quality", number := "Abstract",
    plural := none, priority := some 1 }

def ku15 : ClassEntry :=
  { classId := "15", meaning := "Infinitive (To do)", number := "N/A",
    plural := none, priority := some 1 }

def ku17 : ClassEntry :=
  { classId := "17", meaning := "Locative (At/To)", number := "N/A",
    plural := none, priority := some 2 }

def pa16 : ClassEntry :=
  { classId := "16", meaning := "Locative (At/On)", number := "N/A",
    plural := none, priority := some 1 }

def svi19 : ClassEntry :=
  { classId := "19", meaning := "Diminutive/Pejorative (Small/Bad)", number := "Singular",
    plural := none, priority := some 1 }

def zi21 : ClassEntry :=
  { classId := "21", meaning := "Augmentative/Pejorative (Large/Excessive)", number := "Singular",
    plural := none, priority := some 1 }

/-- SHONA_CLASS_MAP of app.py lines 109 to 159, as an association list in the
literal key order of the source dictionary. -/
def SHONA_CLASS_MAP : List (String × List ClassEntry) :=
  [("mu", [mu1, mu3, mu18]),
   ("va", [va2, va2a]),
   ("mi", [mi4]),
   ("chi", [chi7]),
   ("zvi", [zvi8]),
   ("ma", [ma6]),
   ("ri", [ri5]),
   ("ru", [ru11]),
   ("ka", [ka12]),
   ("tu", [tu13]),
   ("hu", [hu14]),
   ("ku", [ku15, ku17]),
   ("pa", [pa16]),
   ("svi", [svi19]),
   ("zi", [zi21])]

/-- The lookup SHONA_CLASS_MAP.get(pfx.lower(), []) of app.py line 296, where
pfx stands for the Python argument named after the morphological unit before
the stem. A key absent from the dictionary yields the empty list. -/
def lookup (pfx : String) : List ClassEntry :=
  match SHONA_CLASS_MAP.find? (fun kv => kv.1 == py_lower pfx) with
  | some kv => kv.2
  | none => []

/-- The comparison step of the Python call min(candidates, key=lambda x:
x.get(\x7bpriority\x7d, 99)): keep the accumulator unless the next element has a
strictly smaller key, so the first minimum wins, as in Python. -/
def pick_lower_priority (acc x : ClassEntry) : ClassEntry :=
  if x.priority.getD 99 < acc.priority.getD 99 then x else acc

/-- Embedding of min(candidates, key=lambda x: x.get(..., 99)) of app.py line
198; min of an empty sequence raises ValueError. -/
def min_by_priority : List ClassEntry → Except PyError ClassEntry
  | [] => .error .valueError
  | c :: cs => .ok (List.foldl pick_lower_priority c cs)

/-- select_best_class of app.py lines 167 to 198. The first match arm is the
len(candidates) == 1 early return. In the mu branch the locative check scans
candidates for class 18 and falls through when none is found, while the person
and tree checks call next() without a default, which raises StopIteration when
no candidate has the preferred class. Indexing candidates[0] on an empty list
raises IndexError. -/
def select_best_class (pfx stem : String) (candidates : List ClassEntry) :
    Except PyError ClassEntry :=
  match candidates with
  | [c] => .ok c
  | _ =>
    if pfx == "mu" then
      match (if matches_any (py_lower stem) LOCATIVE_STEMS then
               candidates.find? (fun c => c.classId == "18")
             else none) with
      | some c => .ok c
      | none =>
        if matches_any (py_lower stem) PERSON_STEMS then
          match candidates.find? (fun c => c.classId == "1") with
          | some c => .ok c
          | none => .error .stopIteration
        else if matches_any (py_lower stem) (TREE_STEMS ++ BODY_PART_STEMS) then
          match candidates.find? (fun c => c.classId == "3") with
          | some c => .ok c
          | none => .error .stopIteration
        else
          match candidates with
          | [] => .error .indexError
          | c :: _ => .ok c
    else if pfx == "ku" then
      match candidates with
      | [] => .error .indexError
      | c :: _ => .ok c
    else
      min_by_priority candidates

/-- The lemma derivation of app.py lines 312 to 314: start from the input word
and overwrite it with lemma_prefix + stem when the chosen entry is Plural and
its lemma_prefix key is truthy (present, not None, not empty). The pfx
argument is unused by the source computation and kept for the interface. -/
def derive_lemma (word pfx stem : String) (e : ClassEntry) : String :=
  if e.number == "Plural" then
    match e.lemma_prefix with
    | some lp => if lp == "" then word else lp ++ stem
    | none => word
  else word

/-- The plural-form display of app.py lines 322 to 327: when the plural key of
the chosen entry is truthy, show plural + stem; otherwise, for class 18 only,
consult the literal irregular table, which knows exactly the stem munda;
otherwise show nothing. -/
def derive_companion_form (stem : String) (e : ClassEntry) : Option String :=
  match e.plural with
  | some p =>
    if p == "" then
      if e.classId == "18" then
        if stem == "munda" then some "muminda" else none
      else none
    else some (p ++ stem)
  | none =>
    if e.classId == "18" then
      if stem == "munda" then some "muminda" else none
    else none

/-! Helper lemmas shared by the claim theorems below. -/

theorem lookup_mu_eq : lookup "mu" = [mu1, mu3, mu18] := rfl

theorem lookup_ku_eq : lookup "ku" = [ku15, ku17] := rfl

theorem foldl_pick_mem (cs : List ClassEntry) :
    ∀ a, List.foldl pick_lower_priority a cs ∈ a :: cs := by
  induction cs with
  | nil => intro a; simp
  | cons x xs ih =>
    intro a
    rw [List.foldl_cons]
    rcases List.mem_cons.mp (ih (pick_lower_priority a x)) with h1 | h1
    · rw [h1]
      unfold pick_lower_priority
      split
      · exact List.mem_cons_of_mem _ (List.mem_cons_self _ _)
      · exact List.mem_cons_self _ _
    · exact List.mem_cons_of_mem _ (List.mem_cons_of_mem _ h1)

theorem min_by_priority_mem {cs : List ClassEntry} {e : ClassEntry}
    (h : min_by_priority cs = Except.ok e) : e ∈ cs := by
  cases cs with
  | nil => simp [min_by_priority] at h
  | cons c cs =>
    have h2 : List.foldl pick_lower_priority c cs = e := by
      simpa [min_by_priority] using h
    rw [← h2]
    exact foldl_pick_mem cs c

theorem select_empty_eq (pfx stem : String) :
    select_best_class pfx stem [] =
      (if pfx == "mu" then
        (if matches_any (py_lower stem) PERSON_STEMS then Except.error PyError.stopIteration
         else if matches_any (py_lower stem) (TREE_STEMS ++ BODY_PART_STEMS) then
           Except.error PyError.stopIteration
         else Except.error PyError.indexError)
      else if pfx == "ku" then Except.error PyError.indexError
      else Except.error PyError.valueError) := by
  by_cases h1 : pfx == "mu"
  · by_cases h2 : matches_any (py_lower stem) PERSON_STEMS
    · simp [select_best_class, h1, h2]
    · by_cases h3 : matches_any (py_lower stem) (TREE_STEMS ++ BODY_PART_STEMS)
      · simp [select_best_class, h1, h2, h3]
      · simp [select_best_class, h1, h2, h3]
  · by_cases h4 : pfx == "ku"
    · simp [select_best_class, h1, h4]
    · simp [select_best_class, min_by_priority, h1, h4]

theorem select_mu_table_eq (stem : String) :
    select_best_class "mu" stem (lookup "mu") =
      (if matches_any (py_lower stem) LOCATIVE_STEMS then Except.ok mu18
       else if matches_any (py_lower stem) PERSON_STEMS then Except.ok mu1
       else if matches_any (py_lower stem) (TREE_STEMS ++ BODY_PART_STEMS) then Except.ok mu3
       else Except.ok mu1) := by
  rw [lookup_mu_eq]
  by_cases h1 : matches_any (py_lower stem) LOCATIVE_STEMS
  · simp [select_best_class, h1]
    rfl
  · by_cases h2 : matches_any (py_lower stem) PERSON_STEMS
    · simp [select_best_class, h1, h2]
      rfl
    · by_cases h3 : matches_any (py_lower stem) (TREE_STEMS ++ BODY_PART_STEMS)
      · simp [select_best_class, h1, h2, h3]
        rfl
      · simp [select_best_class, h1, h2, h3]

/-- Claim C2: for every string absent (after lowering) from the keys of
SHONA_CLASS_MAP, the lookup returns the empty list; the lookup is a total
function of this file, so it raises nothing. -/
theorem lookup_absent_empty (p : String)
    (h : ∀ kv ∈ SHONA_CLASS_MAP, kv.1 ≠ py_lower p) : lookup p = [] := by
  unfold lookup
  have hf : SHONA_CLASS_MAP.find? (fun kv => kv.1 == py_lower p) = none :=
    List.find?_eq_none.mpr (fun kv hkv => by simp only [beq_iff_eq]; exact h kv hkv)
  rw [hf]

/-- Claim C2 witness: the unknown string xyz has no table entry and the lookup
yields the empty list. -/
theorem lookup_absent_empty_inst : lookup "xyz" = [] :=
  lookup_absent_empty "xyz" (by decide)

/-- Claim C5: calling select_best_class with the empty candidate list raises a
Python exception on every path, for every pfx and stem: StopIteration from the
person or tree rule of the mu branch, IndexError from indexing the empty list,
or ValueError from min of an empty sequence. -/
theorem select_empty_raises (pfx stem : String) :
    ∃ e, select_best_class pfx stem [] = Except.error e := by
  rw [select_empty_eq]
  split_ifs <;> exact ⟨_, rfl⟩

/-- Claim C8: for every stem, select_best_class on the prefix ku with the
table candidates returns the first candidate, the class 15 infinitive entry,
and never the class 17 locative entry. -/
theorem select_ku_first_infinitive (stem : String) :
    select_best_class "ku" stem (lookup "ku") = Except.ok ku15 ∧
    ku15.classId = "15" ∧ ku15.classId ≠ "17" :=
  ⟨rfl, rfl, by decide⟩

/-- Claim C9: every key of SHONA_CLASS_MAP maps to a non-empty list of entries
whose class identifiers are pairwise distinct. -/
theorem class_map_nonempty_distinct :
    ∀ kv ∈ SHONA_CLASS_MAP, kv.2 ≠ [] ∧ (kv.2.map (fun e => e.classId)).Nodup := by
  decide

/-- Claim C9 witness: the invariant instantiated at the mu row of the table. -/
theorem class_map_nonempty_distinct_inst :
    (("mu", [mu1, mu3, mu18]) : String × List ClassEntry).2 ≠ [] ∧
    ((("mu", [mu1, mu3, mu18]) : String × List ClassEntry).2.map (fun e => e.classId)).Nodup :=
  class_map_nonempty_distinct ("mu", [mu1, mu3, mu18]) (by decide)

/-- Claim C1 counterexample: in the mu branch, when a person pattern matches
the stem but no candidate carries class 1, the call of next() has no default
and the function raises StopIteration instead of falling through; shown here
at stem nhu with the candidate list made of the table entries of classes 18
and 3. -/
theorem select_mu_missing_preferred_raises :
    matches_any (py_lower "nhu") PERSON_STEMS = true ∧
    (∀ c ∈ [mu18, mu3], c.classId ≠ "1") ∧
    select_best_class "mu" "nhu" [mu18, mu3] = Except.error PyError.stopIteration := by
  refine ⟨by decide, by decide, by decide⟩

/-- Claim C1 (amended): the no-crash fall-through holds for the locative rule
only. First conjunct: if a locative pattern matches but no candidate carries
class 18, the rule raises nothing, falls through, and when no later pattern
matches some candidate is returned. Second and third conjunct: the person and
tree rules instead raise StopIteration when their pattern matches but the
preferred class (1, resp. 3) is absent from a multi-candidate list. -/
theorem select_mu_fall_through (stem : String) (cs : List ClassEntry) :
    (cs ≠ [] → matches_any (py_lower stem) LOCATIVE_STEMS = true →
      (∀ c ∈ cs, c.classId ≠ "18") →
      matches_any (py_lower stem) PERSON_STEMS = false →
      matches_any (py_lower stem) (TREE_STEMS ++ BODY_PART_STEMS) = false →
      ∃ c ∈ cs, select_best_class "mu" stem cs = Except.ok c) ∧
    (2 ≤ cs.length →
      (∀ c ∈ cs, c.classId ≠ "18" ∧ c.classId ≠ "1") →
      matches_any (py_lower stem) PERSON_STEMS = true →
      select_best_class "mu" stem cs = Except.error PyError.stopIteration) ∧
    (2 ≤ cs.length →
      (∀ c ∈ cs, c.classId ≠ "18" ∧ c.classId ≠ "3") →
      matches_any (py_lower stem) PERSON_STEMS = false →
      matches_any (py_lower stem) (TREE_STEMS ++ BODY_PART_STEMS) = true →
      select_best_class "mu" stem cs = Except.error PyError.stopIteration) := by
  match cs with
  | [] =>
    refine ⟨fun hne => absurd rfl hne, fun hlen => absurd hlen (by simp), fun hlen => ?_⟩
    exact absurd hlen (by simp)
  | [c] =>
    refine ⟨fun _ _ _ _ _ => ⟨c, by simp, rfl⟩, fun hlen => absurd hlen (by simp),
      fun hlen => absurd hlen (by simp)⟩
  | c1 :: c2 :: rest =>
    have hfind18 : ∀ h18 : (∀ c ∈ c1 :: c2 :: rest, c.classId ≠ "18"),
        (c1 :: c2 :: rest).find? (fun c => c.classId == "18") = none :=
      fun h18 => List.find?_eq_none.mpr
        (fun c hc => by simp only [beq_iff_eq]; exact h18 c hc)
    refine ⟨?_, ?_, ?_⟩
    · intro _ hloc h18 hper htree
      refine ⟨c1, by simp, ?_⟩
      simp [select_best_class, hloc, hper, htree, hfind18 h18]
    · intro _ h181 hper
      have hf1 : (c1 :: c2 :: rest).find? (fun c => c.classId == "1") = none :=
        List.find?_eq_none.mpr
          (fun c hc => by simp only [beq_iff_eq]; exact (h181 c hc).2)
      by_cases hloc : matches_any (py_lower stem) LOCATIVE_STEMS
      · simp [select_best_class, hloc, hper, hf1, hfind18 (fun c hc => (h181 c hc).1)]
      · simp [select_best_class, hloc, hper, hf1]
    · intro _ h183 hper htree
      have hf3 : (c1 :: c2 :: rest).find? (fun c => c.classId == "3") = none :=
        List.find?_eq_none.mpr
          (fun c hc => by simp only [beq_iff_eq]; exact (h183 c hc).2)
      by_cases hloc : matches_any (py_lower stem) LOCATIVE_STEMS
      · simp [select_best_class, hloc, hper, htree, hf3,
          hfind18 (fun c hc => (h183 c hc).1)]
      · simp [select_best_class, hloc, hper, htree, hf3]

/-- Claim C1 (amended) witness: at stem munda with candidates of classes 1 and
3, the locative pattern matches, class 18 is absent, and the function still
returns a candidate. -/
theorem select_mu_fall_through_inst :
    ∃ c ∈ [mu1, mu3], select_best_class "mu" "munda" [mu1, mu3] = Except.ok c :=
  (select_mu_fall_through "munda" [mu1, mu3]).1 (by decide) (by decide) (by decide)
    (by decide) (by decide)

/-- Claim C3 counterexample: the stem nhundu qualifies against the pattern nhu
in the code, yet the stem neither equals the pattern nor is a prefix of the
pattern; the direction stated by the claim is reversed. -/
theorem stem_qualifies_claim_false :
    stem_qualifies "nhundu" "nhu" = true ∧
    ¬ (("nhundu" : String) = "nhu" ∨ ("nhundu" : String).data <+: ("nhu" : String).data) := by
  refine ⟨by decide, by decide⟩

/-- Claim C3 (amended): a stem qualifies against a pattern string exactly when
the stem equals the pattern or the pattern is a prefix of the stem (the code
tests stem_lower.startswith(s)). -/
theorem stem_qualifies_iff (s p : String) :
    stem_qualifies s p = true ↔ (s = p ∨ p.data <+: s.data) := by
  unfold stem_qualifies py_startswith
  rw [Bool.or_eq_true]
  constructor
  · rintro (h | h)
    · exact Or.inr (List.isPrefixOf_iff_prefix.mp h)
    · exact Or.inl (by simpa using h)
  · rintro (h | h)
    · exact Or.inr (by simpa using h)
    · exact Or.inl (List.isPrefixOf_iff_prefix.mpr h)

/-- Claim C4: on the mu prefix with the table candidates, the pattern sets are
tested locative first (class 18 returned whenever a locative pattern matches,
before the person check is reached), then person (class 1), then tree and body
part (class 3), and the first candidate, the class 1 entry, is returned when
no pattern matches; in particular the stem munda selects the class 18 entry. -/
theorem select_mu_priority_order (stem : String) :
    (matches_any (py_lower stem) LOCATIVE_STEMS = true →
      select_best_class "mu" stem (lookup "mu") = Except.ok mu18) ∧
    (matches_any (py_lower stem) LOCATIVE_STEMS = false →
      matches_any (py_lower stem) PERSON_STEMS = true →
      select_best_class "mu" stem (lookup "mu") = Except.ok mu1) ∧
    (matches_any (py_lower stem) LOCATIVE_STEMS = false →
      matches_any (py_lower stem) PERSON_STEMS = false →
      matches_any (py_lower stem) (TREE_STEMS ++ BODY_PART_STEMS) = true →
      select_best_class "mu" stem (lookup "mu") = Except.ok mu3) ∧
    (matches_any (py_lower stem) LOCATIVE_STEMS = false →
      matches_any (py_lower stem) PERSON_STEMS = false →
      matches_any (py_lower stem) (TREE_STEMS ++ BODY_PART_STEMS) = false →
      select_best_class "mu" stem (lookup "mu") = Except.ok mu1) ∧
    select_best_class "mu" "munda" (lookup "mu") = Except.ok mu18 ∧
    mu18.classId = "18" := by
  refine ⟨?_, ?_, ?_, ?_, by decide, rfl⟩
  · intro h1
    rw [select_mu_table_eq, h1]
    rfl
  · intro h1 h2
    rw [select_mu_table_eq, h1, h2]
    rfl
  · intro h1 h2 h3
    rw [select_mu_table_eq, h1, h2, h3]
    rfl
  · intro h1 h2 h3
    rw [select_mu_table_eq, h1, h2, h3]
    rfl

/-- Claim C4 witness: the locative stem gomo selects the class 18 entry from
the table candidates of mu. -/
theorem select_mu_priority_order_inst :
    select_best_class "mu" "gomo" (lookup "mu") = Except.ok mu18 :=
  (select_mu_priority_order "gomo").1 (by decide)

/-- Claim C6: the derived lemma is lemma_prefix + stem exactly when the chosen
entry is Plural with a truthy source prefix, and the original word otherwise
(entry not Plural, or source prefix absent); concretely, the word zvibage with
stem bage and the class 8 entry yields chibage. -/
theorem derive_lemma_cases (word pfx stem lp : String) (e : ClassEntry) :
    (e.number = "Plural" → e.lemma_prefix = some lp → lp ≠ "" →
      derive_lemma word pfx stem e = lp ++ stem) ∧
    (e.number ≠ "Plural" → derive_lemma word pfx stem e = word) ∧
    ( e.lemma_prefix = none → derive_lemma word pfx stem e = word) ∧
    derive_lemma "zvibage" "zvi" "bage" zvi8 = "chibage" := by
  refine ⟨?_, ?_, ?_, by decide⟩
  · intro h1 h2 h3
    simp [derive_lemma, h1, h2, h3]
  · intro h1
    simp [derive_lemma, h1]
  · intro h1
    simp [derive_lemma, h1]

/-- Claim C6 witness: the first case of the lemma derivation instantiated at
the class 8 entry, whose source prefix is chi. -/
theorem derive_lemma_cases_inst :
    derive_lemma "muti" "zvi" "bage" zvi8 = "chi" ++ "bage" :=
  (derive_lemma_cases "muti" "zvi" "bage" "chi" zvi8).1 rfl rfl (by decide)

/-- Claim C7: the companion form is plural + stem exactly when the chosen
entry has a truthy companion prefix; the class 18 entry, which has none,
yields the irregular muminda for the stem munda and nothing for any other
stem; entries with no companion prefix and a class other than 18 yield
nothing; concretely, the stem bage with the class 7 entry yields zvibage. -/
theorem derive_companion_form_cases (stem cp : String) (e : ClassEntry) :
    (e.plural = some cp → cp ≠ "" →
      derive_companion_form stem e = some (cp ++ stem)) ∧
    (e.plural = none → e.classId ≠ "18" → derive_companion_form stem e = none) ∧
    derive_companion_form "munda" mu18 = some "muminda" ∧
    (stem ≠ "munda" → derive_companion_form stem mu18 = none) ∧
    derive_companion_form "bage" chi7 = some "zvibage" := by
  refine ⟨?_, ?_, by decide, ?_, by decide⟩
  · intro h1 h2
    simp [derive_companion_form, h1, h2]
  · intro h1 h2
    simp [derive_companion_form, h1, h2]
  · intro h1
    simp [derive_companion_form, mu18, h1]

/-- Claim C7 witness: the first case of the companion derivation instantiated
at the class 7 entry, whose companion prefix is zvi. -/
theorem derive_companion_form_cases_inst :
    derive_companion_form "bage" chi7 = some ("zvi" ++ "bage") :=
  (derive_companion_form_cases "bage" "zvi" chi7).1 rfl (by decide)

/-- Claim C10: whenever select_best_class returns normally, the returned entry
is an element of the given candidate list, for every prefix, stem and
candidate list. -/
theorem select_mem_candidates (pfx stem : String) (cs : List ClassEntry)
    (e : ClassEntry) (h : select_best_class pfx stem cs = Except.ok e) : e ∈ cs := by
  match cs with
  | [] =>
    rw [select_empty_eq] at h
    split_ifs at h <;> simp at h
  | [c] =>
    have hc : select_best_class pfx stem [c] = Except.ok c := rfl
    rw [hc] at h
    injection h with h2
    rw [← h2]
    exact List.mem_cons_self _ _
  | c1 :: c2 :: rest =>
    unfold select_best_class at h
    split at h
    · rename_i c heq
      simp at heq
    · by_cases hmu : (pfx == "mu") = true
      · rw [if_pos hmu] at h
        split at h
        · rename_i c heq
          injection h with h2
          rw [← h2]
          split at heq
          · exact List.mem_of_find?_eq_some heq
          · simp at heq
        · split_ifs at h
          · split at h
            · rename_i c heq
              injection h with h2
              rw [← h2]
              exact List.mem_of_find?_eq_some heq
            · simp at h
          · split at h
            · rename_i c heq
              injection h with h2
              rw [← h2]
              exact List.mem_of_find?_eq_some heq
            · simp at h
          · simp only [Except.ok.injEq] at h
            rw [← h]
            exact List.mem_cons_self _ _
      · rw [if_neg hmu] at h
        by_cases hku : (pfx == "ku") = true
        · rw [if_pos hku] at h
          simp only [Except.ok.injEq] at h
          rw [← h]
          exact List.mem_cons_self _ _
        · rw [if_neg hku] at h
          exact min_by_priority_mem h

/-- Claim C10 witness: the entry returned for the prefix ku and stem enda is a
member of the table candidates of ku. -/
theorem select_mem_candidates_inst : ku15 ∈ lookup "ku" :=
  select_mem_candidates "ku" "enda" (lookup "ku") ku15 rfl

end ShonaMoph
